import Mathlib

/-!
Verification of the session-coordination core of the dwv fork
(ToolboxController and DataController) against its specification.

The JavaScript source is shallowly embedded: class instances become explicit
state records, in-place mutation becomes state passing, thrown exceptions
become `Except` values carrying the state at the moment of the throw, and
duck-typed property access on `null`/`undefined` becomes an explicit
`JsErr.typeError`.  Handler and listener functions are represented by
identity tokens (`Nat`): only their identity and presence matter to the
properties below, their bodies are out of scope.  External collaborators
(DicomElementsWrapper.dumpToObject, mergeObjects, Image.appendSlice) are
abstract function parameters gathered in `Collab`.
-/

/-- A JavaScript object viewed as an ordered association list, as the source
uses plain objects for `#data`, `#toolList`, `#boundLayers` and
`#callbackStore`.  `assocGet` is property read (first matching key, and the
operations below never create duplicate keys). -/
def assocGet {α β : Type} [DecidableEq α] : List (α × β) → α → Option β
  | [], _ => none
  | (k0, v0) :: xs, a => if k0 = a then some v0 else assocGet xs a

/-- Property assignment `obj[k] = v`: overwrite in place when the key exists,
append in insertion order when it does not, as JavaScript objects do. -/
def assocSet {α β : Type} [DecidableEq α] : List (α × β) → α → β → List (α × β)
  | [], k, v => [(k, v)]
  | (k0, v0) :: xs, k, v =>
    if k0 = k then (k, v) :: xs else (k0, v0) :: assocSet xs k v

/-- In-place mutation of the value stored under a key (the source mutates the
object obtained from a property read; keys are unique in all reachable
states, so updating every occurrence agrees with updating the one object). -/
def assocUpdate {α β : Type} [DecidableEq α] : List (α × β) → α → (β → β) → List (α × β)
  | [], _, _ => []
  | (k0, v0) :: xs, k, f =>
    if k0 = k then (k0, f v0) :: assocUpdate xs k f
    else (k0, v0) :: assocUpdate xs k f

/-- Removal of the first occurrence of an element, mirroring the splice done
by listener deregistration (remove-by-identity). -/
def removeFirst {α : Type} [DecidableEq α] : List α → α → List α
  | [], _ => []
  | x :: xs, a => if x = a then xs else x :: removeFirst xs a

theorem assocGet_assocSet_self {α β : Type} [DecidableEq α]
    (xs : List (α × β)) (k : α) (v : β) :
    assocGet (assocSet xs k v) k = some v := by
  induction xs with
  | nil => simp [assocSet, assocGet]
  | cons p xs ih =>
    obtain ⟨k0, v0⟩ := p
    by_cases h : k0 = k
    · simp [assocSet, assocGet, h]
    · simp [assocSet, assocGet, h, ih]

theorem assocGet_assocSet_ne {α β : Type} [DecidableEq α]
    (xs : List (α × β)) (k j : α) (v : β) (hj : j ≠ k) :
    assocGet (assocSet xs k v) j = assocGet xs j := by
  induction xs with
  | nil => simp [assocSet, assocGet, Ne.symm hj]
  | cons p xs ih =>
    obtain ⟨k0, v0⟩ := p
    by_cases h : k0 = k
    · subst h
      simp [assocSet, assocGet, Ne.symm hj]
    · simp [assocSet, assocGet, h, ih]

theorem assocGet_assocUpdate {α β : Type} [DecidableEq α]
    (xs : List (α × β)) (k j : α) (f : β → β) :
    assocGet (assocUpdate xs k f) j =
      if j = k then (assocGet xs k).map f else assocGet xs j := by
  induction xs with
  | nil => by_cases h : j = k <;> simp [assocUpdate, assocGet, h]
  | cons p xs ih =>
    obtain ⟨k0, v0⟩ := p
    by_cases h0 : k0 = k
    · subst h0
      by_cases hj : j = k0
      · subst hj
        simp [assocUpdate, assocGet]
      · simp [assocUpdate, assocGet, hj, Ne.symm hj, ih]
    · by_cases hj : j = k
      · subst hj
        have hne : k0 ≠ j := h0
        simp [assocUpdate, assocGet, h0, hne, ih]
      · by_cases h1 : k0 = j
        · subst h1
          simp [assocUpdate, assocGet, h0, hj]
        · simp [assocUpdate, assocGet, h0, h1, hj, ih]

/-- Outcome of a JavaScript throw: a `TypeError` from dereferencing
`null`/`undefined`, or an explicit `new Error(msg)`. -/
inductive JsErr : Type where
  | typeError : JsErr
  | jsError : String → JsErr
deriving Repr, DecidableEq

deriving instance DecidableEq for Except

/-- The ASCII single-quote character used by the source in its error
messages. -/
def squote : String := (Char.ofNat 39).toString

/-- Metadata map: ordered tag-or-key to value mapping (values are opaque to
this core; represented as strings). -/
abbrev MetaMap : Type := List (String × String)

/-- `typeof meta.x00020010 !== 'undefined'`: the transfer-syntax sniff used
by `DataController` to detect DICOM-shaped metadata. -/
def metaHasX00020010 (meta : MetaMap) : Bool :=
  (assocGet meta "x00020010").isSome

/-- External image object (ImageRef collaborator): an identity plus its
slice content, grown only through the `appendSlice` contract. -/
structure Image where
  uid : Nat
  slices : List Nat
deriving Repr, DecidableEq

/-- External collaborators of `DataController`, kept abstract: the DICOM
wrapper flattening, the metadata merge, and the image append contract. -/
structure Collab where
  dumpToObject : MetaMap → MetaMap
  mergeObjects : MetaMap → MetaMap → String → String → MetaMap
  appendSlice : Image → Image → Image

/-- One `{image, meta}` entry of the data store. -/
structure DataEntry where
  image : Image
  meta : MetaMap
deriving Repr, DecidableEq

/-- State of a `DataController` instance together with the listener
registrations it has made on the outside world:
`data` is the `#data` object; `storeListeners` are the registrations held by
the `#listenerHandler` notification hub; `imageListeners` records, as pairs
(image uid, data index), the `imagechange` subscriptions the controller has
placed on image objects via `image.addEventListener`. -/
structure DCState where
  data : List (Nat × DataEntry)
  storeListeners : List (String × Nat)
  imageListeners : List (Nat × Nat)
deriving Repr, DecidableEq

/-- `length()`: `Object.keys(this.#data).length` (keys are unique in every
reachable state, so the entry count equals the key count). -/
def DataController.length (s : DCState) : Nat :=
  s.data.length

/-- `reset()`: `this.#data = []` — only the data object is reassigned. -/
def DataController.reset (s : DCState) : DCState :=
  { s with data := [] }

/-- `get(index)`: property read of `#data`, `undefined` becomes `none`. -/
def DataController.get (s : DCState) (index : Nat) : Option DataEntry :=
  assocGet s.data index

/-- `#getMetaObject(meta)`: wrap through the DICOM elements wrapper when the
transfer-syntax tag x00020010 is present, otherwise keep the input as-is. -/
def DataController.getMetaObject (c : Collab) (meta : MetaMap) : MetaMap :=
  if metaHasX00020010 meta then c.dumpToObject meta else meta

/-- `addNew(index, image, meta)`: throw on an already-used index (before any
mutation, so the error carries the unchanged state), otherwise store
`{image, meta: #getMetaObject(meta)}` and subscribe to the image's
`imagechange` notifications. -/
def DataController.addNew (c : Collab) (s : DCState) (index : Nat)
    (image : Image) (meta : MetaMap) : Except (JsErr × DCState) DCState :=
  if (assocGet s.data index).isSome then
    Except.error
      (JsErr.jsError ("Index already used in storage: " ++ toString index), s)
  else
    Except.ok
      { s with
        data := assocSet s.data index
          { image := image, meta := DataController.getMetaObject c meta },
        imageListeners := s.imageListeners ++ [(image.uid, index)] }

/-- `update(index, image, meta)`: dereference the entry (a missing index
makes `dataToUpdate.image` a read on `undefined`, hence a TypeError before
any mutation), append the image through the stored image's append contract,
pick the identity key by sniffing the raw metadata for x00020010, and merge
the normalized metadata into the existing one. -/
def DataController.update (c : Collab) (s : DCState) (index : Nat)
    (image : Image) (meta : MetaMap) : Except (JsErr × DCState) DCState :=
  match assocGet s.data index with
  | none => Except.error (JsErr.typeError, s)
  | some dataToUpdate =>
    let newImage := c.appendSlice dataToUpdate.image image
    let idKey := if metaHasX00020010 meta then "InstanceNumber" else "imageUid"
    let newMeta := c.mergeObjects dataToUpdate.meta
      (DataController.getMetaObject c meta) idKey "value"
    Except.ok
      { s with
        data := assocSet s.data index { image := newImage, meta := newMeta } }

/-- `addEventListener(type, callback)`: delegate to the notification hub
(type-keyed registration in registration order). -/
def DataController.addEventListener (s : DCState) (ty : String) (cb : Nat) :
    DCState :=
  { s with storeListeners := s.storeListeners ++ [(ty, cb)] }

/-- `removeEventListener(type, callback)`: remove the registration by
identity. -/
def DataController.removeEventListener (s : DCState) (ty : String) (cb : Nat) :
    DCState :=
  { s with storeListeners := removeFirst s.storeListeners (ty, cb) }

/-- A concrete collaborator instance used for evaluating the model on
concrete inputs. -/
def collab0 : Collab :=
  { dumpToObject := fun m => m,
    mergeObjects := fun a b _ _ => a ++ b,
    appendSlice := fun a b => { uid := a.uid, slices := a.slices ++ b.slices } }

/-- A fresh `DataController` state. -/
def dcInit : DCState :=
  { data := [], storeListeners := [], imageListeners := [] }

/-- Concrete image with uid 7 holding one slice. -/
def img7 : Image := { uid := 7, slices := [70] }

/-- Concrete image with uid 8 holding one slice. -/
def img8 : Image := { uid := 8, slices := [80] }

/-- Concrete non-DICOM metadata (no x00020010 tag). -/
def m0 : MetaMap := [("imageUid", "u1")]

/-- A second concrete non-DICOM metadata map. -/
def m1 : MetaMap := [("imageUid", "u2")]

/-- State obtained by `addNew(0, img7, m0)` on a fresh controller. -/
def dcDemo : DCState :=
  (DataController.addNew collab0 dcInit 0 img7 m0).toOption.getD dcInit

/-- A tool object: its activation flag and its duck-typed per-event-kind
handlers (property name to handler identity token). -/
structure Tool where
  active : Bool
  handlers : List (String × Nat)
deriving Repr, DecidableEq

/-- Listener-visible state of one rendering surface (layer object together
with its DOM element, both keyed by the layer id): whether interaction
capture is enabled, and the registered (event type, callback identity)
listeners. -/
structure LayerDom where
  interactionBound : Bool
  listeners : List (String × Nat)
deriving Repr, DecidableEq

/-- State of a `ToolboxController` instance plus the outside world it
touches.  `selectedTool` stores the registry key of the selected tool; the
source stores the tool object reference itself, and every reference it ever
stores comes from `#toolList`, so the key always resolves on reachable
states.  `callbackStore` is the two-level `#callbackStore[layerId][eventType]`
memo table, flattened to a pair key.  `nextCb` is the supply of fresh
function identities: every JavaScript closure creation consumes one, so two
separately created closures are never equal. -/
structure TBState where
  toolList : List (String × Tool)
  selectedTool : Option String
  callbackStore : List ((String × String) × Nat)
  boundLayers : List (String × String)
  dom : List (String × LayerDom)
  nextCb : Nat
deriving Repr, DecidableEq

/-- Modelled from the spec: `RenderSurface.bindInteraction()` enables
interaction capture on the surface (the layer classes are outside the given
files). -/
def layerBindInteraction (s : TBState) (layerId : String) : TBState :=
  { s with
    dom := assocUpdate s.dom layerId
      (fun d => { d with interactionBound := true }) }

/-- Modelled from the spec: `RenderSurface.unbindInteraction()` disables
interaction capture. -/
def layerUnbindInteraction (s : TBState) (layerId : String) : TBState :=
  { s with
    dom := assocUpdate s.dom layerId
      (fun d => { d with interactionBound := false }) }

/-- Modelled from the spec: `addEventListener(kind, handler)` on a surface
or its DOM element appends the registration (registration order). -/
def layerAddListener (s : TBState) (layerId ty : String) (cb : Nat) : TBState :=
  { s with
    dom := assocUpdate s.dom layerId
      (fun d => { d with listeners := d.listeners ++ [(ty, cb)] }) }

/-- Modelled from the spec: `removeEventListener(kind, handler)` removes the
registration matching the handler by identity; a handler that was never
registered makes it a no-op. -/
def layerRemoveListener (s : TBState) (layerId ty : String) (cb : Nat) :
    TBState :=
  { s with
    dom := assocUpdate s.dom layerId
      (fun d => { d with listeners := removeFirst d.listeners (ty, cb) }) }

/-- Modelled from the spec: the canonical interaction event kinds registered
per bound surface (the source imports `InteractionEventNames` from
gui/generic, which is outside the given files): pointer press, move,
release and leave, wheel, double click, and the touch start, move and end
kinds. -/
def InteractionEventNames : List String :=
  ["mousedown", "mousemove", "mouseup", "mouseout", "wheel", "dblclick",
   "touchstart", "touchmove", "touchend"]

/-- `hasTool(name)`: `typeof this.getToolList()[name] !== 'undefined'`. -/
def ToolboxController.hasTool (s : TBState) (name : String) : Bool :=
  (assocGet s.toolList name).isSome

/-- `getSelectedTool()`: the `#selectedTool` reference, resolved through the
registry key (see `TBState`). -/
def ToolboxController.getSelectedTool (s : TBState) : Option Tool :=
  s.selectedTool.bind fun n => assocGet s.toolList n

/-- `getSelectedToolEventHandler(eventType)`:
`this.getSelectedTool()[eventType]` — a property read on `null` when no tool
is selected (TypeError), otherwise the tool's handler property, which is
`undefined` (`none`) when the tool declares no handler for the kind. -/
def ToolboxController.getSelectedToolEventHandler (s : TBState)
    (eventType : String) : Except JsErr (Option Nat) :=
  match ToolboxController.getSelectedTool s with
  | none => Except.error JsErr.typeError
  | some t => Except.ok (assocGet t.handlers eventType)

/-- `setSelectedTool(name)`: throw `Unknown tool` when the name is not
registered (before any mutation, so the error carries the unchanged state);
otherwise deactivate the previously selected tool if any, record the
selection, and activate the new tool.  The second component of the result
is the trace of `activate` calls as (tool name, argument) pairs, in call
order. -/
def ToolboxController.setSelectedTool (s : TBState) (name : String) :
    Except (JsErr × TBState) (TBState × List (String × Bool)) :=
  if ToolboxController.hasTool s name then
    match s.selectedTool with
    | some prev =>
      let s1 := { s with
        toolList := assocUpdate s.toolList prev
          (fun t => { t with active := false }) }
      let s2 := { s1 with
        selectedTool := some name,
        toolList := assocUpdate s1.toolList name
          (fun t => { t with active := true }) }
      Except.ok (s2, [(prev, false), (name, true)])
    | none =>
      let s2 := { s with
        selectedTool := some name,
        toolList := assocUpdate s.toolList name
          (fun t => { t with active := true }) }
      Except.ok (s2, [(name, true)])
  else
    Except.error
      (JsErr.jsError ("Unknown tool: " ++ squote ++ name ++ squote), s)

/-- A mouse or touch event as seen by the dispatch callbacks: its `type`
string and the `button`/`buttons` fields (0 when absent, as for touch
events).  The coordinate augmentation performed by `augmentEventOffsets`
(fields `_x`, `_y`, `_x1`, `_y1` computed by the external `getEventOffset`)
only decorates the event passed on to the handler and plays no part in
routing, so it is not modelled. -/
structure MEvent where
  type : String
  button : Nat
  buttons : Nat
deriving Repr, DecidableEq

/-- The secondary-button test of the mouse/touch callback:
`(event.type === 'mousedown' && event.button === 2) ||
(event.type === 'mousemove' && event.buttons === 2)`. -/
def mouchSecondary (ev : MEvent) : Bool :=
  (ev.type == "mousedown" && ev.button == 2) ||
  (ev.type == "mousemove" && ev.buttons == 2)

/-- `applySelectedTool(event, selectedTool?)` from `#getOnMouch`: a no-op
unless some tool is selected; then look the handler up on the selected tool
(no override argument) or on `#toolList[override]` (override argument), and
call it when defined.  The result is the identity of the handler that was
invoked (`none`: no handler was called).  Looking a property up on the
missing override tool is a read on `undefined`, hence a TypeError. -/
def ToolboxController.applySelectedTool (s : TBState) (evType : String)
    (overrideTool : Option String) : Except JsErr (Option Nat) :=
  match s.selectedTool with
  | none => Except.ok none
  | some sel =>
    match (match overrideTool with
           | none => assocGet s.toolList sel
           | some o => assocGet s.toolList o) with
    | none => Except.error JsErr.typeError
    | some t => Except.ok (assocGet t.handlers evType)

/-- Behavior of the mouse/touch dispatch callback built by `#getOnMouch`
(the branch for every kind other than keydown and touchend): apply the
secondary-button override to route to the tool named WindowLevel, otherwise
route to the selected tool. -/
def ToolboxController.onMouchEvent (s : TBState) (ev : MEvent) :
    Except JsErr (Option Nat) :=
  if mouchSecondary ev then
    ToolboxController.applySelectedTool s ev.type (some "WindowLevel")
  else
    ToolboxController.applySelectedTool s ev.type none

/-- `#getOnMouch(layerId, eventType)`: return the memoized dispatch callback
for the pair, creating and caching a fresh one on first use. -/
def ToolboxController.getOnMouch (s : TBState) (layerId eventType : String) :
    TBState × Nat :=
  match assocGet s.callbackStore (layerId, eventType) with
  | some cb => (s, cb)
  | none =>
    ({ s with
        callbackStore := assocSet s.callbackStore (layerId, eventType) s.nextCb,
        nextCb := s.nextCb + 1 },
      s.nextCb)

/-- `#unbindLayer(layer)`: disable interaction capture, remove the memoized
dispatch callback for every canonical event kind, then call
`removeEventListener('contextmenu', ...)` with a freshly created arrow
function — a new identity, so that removal never matches the listener that
`bindLayer` registered. -/
def ToolboxController.unbindLayer (s : TBState) (layerId : String) : TBState :=
  let s1 := layerUnbindInteraction s layerId
  let s2 := InteractionEventNames.foldl
    (fun st name =>
      let r := ToolboxController.getOnMouch st layerId name
      layerRemoveListener r.1 layerId name r.2) s1
  layerRemoveListener { s2 with nextCb := s2.nextCb + 1 }
    layerId "contextmenu" s2.nextCb

/-- `bindLayer(layer, layerGroupDivId)`: unbind the surface previously bound
to the group if any, enable interaction capture, register the memoized
dispatch callback for every canonical event kind, register a freshly
created arrow function as the contextmenu suppression listener, and record
the binding. -/
def ToolboxController.bindLayer (s : TBState) (layerId groupId : String) :
    TBState :=
  let s1 := match assocGet s.boundLayers groupId with
    | some prev => ToolboxController.unbindLayer s prev
    | none => s
  let s2 := layerBindInteraction s1 layerId
  let s3 := InteractionEventNames.foldl
    (fun st name =>
      let r := ToolboxController.getOnMouch st layerId name
      layerAddListener r.1 layerId name r.2) s2
  let s4 := layerAddListener { s3 with nextCb := s3.nextCb + 1 }
    layerId "contextmenu" s3.nextCb
  { s4 with boundLayers := assocSet s4.boundLayers groupId layerId }

/-- Number of listeners registered on a surface for one event type. -/
def countListeners (s : TBState) (layerId ty : String) : Nat :=
  match assocGet s.dom layerId with
  | none => 0
  | some d => (d.listeners.filter (fun p => p.1 == ty)).length

/-- Concrete tool with mousedown and mousemove handlers (tokens 1 and 2). -/
def toolPan : Tool :=
  { active := true, handlers := [("mousedown", 1), ("mousemove", 2)] }

/-- Concrete tool standing for the WindowLevel override target (handler
tokens 5 and 6). -/
def toolWL : Tool :=
  { active := false, handlers := [("mousedown", 5), ("mousemove", 6)] }

/-- Concrete controller with two registered tools and Pan selected. -/
def tbTools : TBState :=
  { toolList := [("Pan", toolPan), ("WindowLevel", toolWL)],
    selectedTool := some "Pan",
    callbackStore := [], boundLayers := [], dom := [], nextCb := 0 }

/-- Concrete controller with no tool selected. -/
def tbEmpty : TBState :=
  { toolList := [], selectedTool := none,
    callbackStore := [], boundLayers := [], dom := [], nextCb := 0 }

/-- Concrete controller with WindowLevel registered but no tool selected. -/
def tbNoSel : TBState :=
  { toolList := [("WindowLevel", toolWL)], selectedTool := none,
    callbackStore := [], boundLayers := [], dom := [], nextCb := 0 }

/-- Concrete controller with two unbound surfaces L1 and L2. -/
def tbDemo : TBState :=
  { toolList := [], selectedTool := none,
    callbackStore := [], boundLayers := [],
    dom := [("L1", { interactionBound := false, listeners := [] }),
            ("L2", { interactionBound := false, listeners := [] })],
    nextCb := 0 }

/-- C4: for every id not present in the store, `addNew(id, image, meta)`
followed by `get(id)` returns the stored entry (image plus normalized
metadata), other entries are untouched, and a second `addNew` with the same
id fails with the DuplicateIndex error, leaving the state — in particular
the originally stored entry — unchanged. -/
theorem C4_addNew_get (c : Collab) (s : DCState) (i : Nat)
    (img img2 : Image) (m m2 : MetaMap) (h : assocGet s.data i = none) :
    ∃ s2, DataController.addNew c s i img m = Except.ok s2 ∧
      DataController.get s2 i =
        some { image := img, meta := DataController.getMetaObject c m } ∧
      (∀ j, j ≠ i → DataController.get s2 j = DataController.get s j) ∧
      DataController.addNew c s2 i img2 m2 =
        Except.error
          (JsErr.jsError ("Index already used in storage: " ++ toString i),
            s2) := by
  refine ⟨{ s with
      data := assocSet s.data i
        { image := img, meta := DataController.getMetaObject c m },
      imageListeners := s.imageListeners ++ [(img.uid, i)] }, ?_, ?_, ?_, ?_⟩
  · simp [DataController.addNew, h]
  · simp [DataController.get, assocGet_assocSet_self]
  · intro j hj
    simp [DataController.get, assocGet_assocSet_ne _ _ _ _ hj]
  · simp [DataController.addNew, assocGet_assocSet_self]

/-- C4 witness: concrete run on a fresh store at id 0. -/
theorem C4_witness :
    ∃ s2, DataController.addNew collab0 dcInit 0 img7 m0 = Except.ok s2 ∧
      DataController.get s2 0 =
        some { image := img7, meta := DataController.getMetaObject collab0 m0 } ∧
      (∀ j, j ≠ 0 → DataController.get s2 j = DataController.get dcInit j) ∧
      DataController.addNew collab0 s2 0 img8 m1 =
        Except.error
          (JsErr.jsError ("Index already used in storage: " ++ toString 0),
            s2) :=
  C4_addNew_get collab0 dcInit 0 img7 img8 m0 m1 (by decide)

/-- C6: on an existing entry, `update(id, image, meta)` replaces the entry by
the image grown through the stored image's append contract and the metadata
merged via the merge collaborator, with identity key InstanceNumber exactly
when the raw metadata carries the transfer-syntax tag x00020010 and imageUid
otherwise; the normalization flattens through the DICOM wrapper exactly when
x00020010 is present and passes the metadata through otherwise.  Other
entries and all listener registrations are untouched. -/
theorem C6_update_merge (c : Collab) (s : DCState) (i : Nat) (img : Image)
    (m : MetaMap) (e : DataEntry) (h : assocGet s.data i = some e) :
    ∃ s2, DataController.update c s i img m = Except.ok s2 ∧
      DataController.get s2 i =
        some { image := c.appendSlice e.image img,
               meta := c.mergeObjects e.meta (DataController.getMetaObject c m)
                 (if metaHasX00020010 m then "InstanceNumber" else "imageUid")
                 "value" } ∧
      (∀ j, j ≠ i → DataController.get s2 j = DataController.get s j) ∧
      DataController.getMetaObject c m =
        (if metaHasX00020010 m then c.dumpToObject m else m) ∧
      s2.imageListeners = s.imageListeners ∧
      s2.storeListeners = s.storeListeners := by
  refine ⟨{ s with
      data := assocSet s.data i
        { image := c.appendSlice e.image img,
          meta := c.mergeObjects e.meta (DataController.getMetaObject c m)
            (if metaHasX00020010 m then "InstanceNumber" else "imageUid")
            "value" } }, ?_, ?_, ?_, rfl, rfl, rfl⟩
  · simp [DataController.update, h]
  · simp [DataController.get, assocGet_assocSet_self]
  · intro j hj
    simp [DataController.get, assocGet_assocSet_ne _ _ _ _ hj]

/-- C6 witness: concrete update of the entry created by `addNew(0, img7, m0)`
with non-DICOM metadata, so the identity key is imageUid. -/
theorem C6_witness :
    ∃ s2, DataController.update collab0 dcDemo 0 img8 m1 = Except.ok s2 ∧
      DataController.get s2 0 =
        some { image := collab0.appendSlice img7 img8,
               meta := collab0.mergeObjects m0
                 (DataController.getMetaObject collab0 m1)
                 (if metaHasX00020010 m1 then "InstanceNumber" else "imageUid")
                 "value" } ∧
      (∀ j, j ≠ 0 → DataController.get s2 j = DataController.get dcDemo j) ∧
      DataController.getMetaObject collab0 m1 =
        (if metaHasX00020010 m1 then collab0.dumpToObject m1 else m1) ∧
      s2.imageListeners = dcDemo.imageListeners ∧
      s2.storeListeners = dcDemo.storeListeners :=
  C6_update_merge collab0 dcDemo 0 img8 m1 { image := img7, meta := m0 }
    (by decide)

/-- C7 counterexample: after `addNew(0, img7, m0)` and `reset()`, the
`imagechange` subscription the controller placed on the image is still
registered — `reset` only reassigns `#data` and removes no listener, so the
claim that all listeners tied to the cleared entries are removed is false. -/
theorem C7_counterexample :
    (DataController.reset dcDemo).imageListeners ≠ [] := by
  decide

/-- C7 amended: after `reset()` the store holds no entries — `length()`
returns 0 regardless of prior contents — but the listeners tied to the
cleared entries (the `imagechange` subscriptions placed on the images) and
the store's own listeners are left registered, not removed. -/
theorem C7_reset_amended (s : DCState) :
    DataController.length (DataController.reset s) = 0 ∧
    (DataController.reset s).imageListeners = s.imageListeners ∧
    (DataController.reset s).storeListeners = s.storeListeners :=
  ⟨rfl, rfl, rfl⟩

/-- C9: `update(id, image, meta)` on an id not present in the store throws a
TypeError while dereferencing the missing entry, before any mutation: the
state carried by the error is exactly the state before the call, so every
stored entry and every registered listener is unchanged. -/
theorem C9_update_missing (c : Collab) (s : DCState) (i : Nat)
    (img : Image) (m : MetaMap) (h : assocGet s.data i = none) :
    DataController.update c s i img m = Except.error (JsErr.typeError, s) := by
  simp [DataController.update, h]

/-- C9 witness: concrete failed update on a fresh store. -/
theorem C9_witness :
    DataController.update collab0 dcInit 5 img7 m0 =
      Except.error (JsErr.typeError, dcInit) :=
  C9_update_missing collab0 dcInit 5 img7 m0 (by decide)

/-- C1 counterexample: with no tool selected, `getSelectedToolEventHandler`
is a property read on `null` and raises a TypeError — it does not return
undefined, contrary to the claim. -/
theorem C1_counterexample :
    ToolboxController.getSelectedToolEventHandler tbEmpty "mousedown" =
      Except.error JsErr.typeError ∧
    ToolboxController.getSelectedToolEventHandler tbEmpty "mousedown" ≠
      Except.ok none := by
  decide

/-- C1 amended: with no tool selected, `getSelectedToolEventHandler` raises
a TypeError; when a tool is selected it returns the tool's handler for the
event kind, which is undefined when the tool declares no handler for it. -/
theorem C1_handler_amended (s : TBState) (e : String) :
    (ToolboxController.getSelectedTool s = none →
      ToolboxController.getSelectedToolEventHandler s e =
        Except.error JsErr.typeError) ∧
    (∀ t, ToolboxController.getSelectedTool s = some t →
      ToolboxController.getSelectedToolEventHandler s e =
        Except.ok (assocGet t.handlers e)) := by
  constructor
  · intro h
    simp [ToolboxController.getSelectedToolEventHandler, h]
  · intro t h
    simp [ToolboxController.getSelectedToolEventHandler, h]

/-- C1 witness: a selected tool with no wheel handler yields undefined. -/
theorem C1_witness :
    ToolboxController.getSelectedToolEventHandler tbTools "wheel" =
      Except.ok none := by
  have h := (C1_handler_amended tbTools "wheel").2 toolPan (by decide)
  rw [h]
  decide

/-- C3: `setSelectedTool(name)` with an unregistered name throws the
UnknownTool error with the state unchanged; with a registered name the
activation trace is exactly `activate(false)` on the previously selected
tool (when there is one) followed by `activate(true)` on the named tool,
the named tool becomes selected, and when at most the selected tool was
active before the call, the named tool is the only active tool after it. -/
theorem C3_setSelectedTool (s : TBState) (name : String) :
    (assocGet s.toolList name = none →
      ToolboxController.setSelectedTool s name =
        Except.error
          (JsErr.jsError ("Unknown tool: " ++ squote ++ name ++ squote), s)) ∧
    (∀ t, assocGet s.toolList name = some t →
      ∃ s2, ToolboxController.setSelectedTool s name =
          Except.ok (s2,
            (match s.selectedTool with
             | some prev => [(prev, false)]
             | none => []) ++ [(name, true)]) ∧
        s2.selectedTool = some name ∧
        ((∀ n u, assocGet s.toolList n = some u → u.active = true →
            s.selectedTool = some n) →
          ∀ n u, assocGet s2.toolList n = some u → u.active = true →
            n = name)) := by
  constructor
  · intro h
    simp [ToolboxController.setSelectedTool, ToolboxController.hasTool, h]
  · intro t ht
    cases hsel : s.selectedTool with
    | none =>
      refine ⟨{ s with
          selectedTool := some name,
          toolList := assocUpdate s.toolList name
            (fun u => { u with active := true }) }, ?_, rfl, ?_⟩
      · simp [ToolboxController.setSelectedTool, ToolboxController.hasTool,
          ht, hsel]
      · intro hinv n u hget hact
        by_cases hn : n = name
        · exact hn
        · exfalso
          rw [assocGet_assocUpdate, if_neg hn] at hget
          exact Option.noConfusion (hinv n u hget hact)
    | some prev =>
      refine ⟨{ s with
          selectedTool := some name,
          toolList := assocUpdate (assocUpdate s.toolList prev
              (fun u => { u with active := false })) name
            (fun u => { u with active := true }) }, ?_, rfl, ?_⟩
      · simp [ToolboxController.setSelectedTool, ToolboxController.hasTool,
          ht, hsel]
      · intro hinv n u hget hact
        by_cases hn : n = name
        · exact hn
        · exfalso
          rw [assocGet_assocUpdate, if_neg hn, assocGet_assocUpdate] at hget
          by_cases hp : n = prev
          · rw [if_pos hp] at hget
            rcases Option.map_eq_some'.mp hget with ⟨u0, hu0, hu⟩
            rw [← hu] at hact
            simp at hact
          · rw [if_neg hp] at hget
            have h2 := hinv n u hget hact
            injection h2 with h3
            exact hp h3.symm

/-- C3 witness: selecting WindowLevel while Pan is selected deactivates Pan
then activates WindowLevel, in that order. -/
theorem C3_witness :
    ∃ s2, ToolboxController.setSelectedTool tbTools "WindowLevel" =
        Except.ok (s2, [("Pan", false), ("WindowLevel", true)]) ∧
      s2.selectedTool = some "WindowLevel" ∧
      ((∀ n u, assocGet tbTools.toolList n = some u → u.active = true →
          tbTools.selectedTool = some n) →
        ∀ n u, assocGet s2.toolList n = some u → u.active = true →
          n = "WindowLevel") :=
  (C3_setSelectedTool tbTools "WindowLevel").2 toolWL (by decide)

/-- C10: re-selecting the already selected tool is not a silent no-op: the
tool receives `activate(false)` then `activate(true)`, stays selected, and
ends active. -/
theorem C10_reselect (s : TBState) (name : String) (t : Tool)
    (hsel : s.selectedTool = some name)
    (ht : assocGet s.toolList name = some t) :
    ∃ s2, ToolboxController.setSelectedTool s name =
        Except.ok (s2, [(name, false), (name, true)]) ∧
      s2.selectedTool = some name ∧
      assocGet s2.toolList name = some { t with active := true } := by
  refine ⟨{ s with
      selectedTool := some name,
      toolList := assocUpdate (assocUpdate s.toolList name
          (fun u => { u with active := false })) name
        (fun u => { u with active := true }) }, ?_, rfl, ?_⟩
  · simp [ToolboxController.setSelectedTool, ToolboxController.hasTool,
      ht, hsel]
  · rw [assocGet_assocUpdate, if_pos rfl, assocGet_assocUpdate, if_pos rfl,
      ht]
    rfl

/-- C10 witness: re-selecting Pan on the concrete controller. -/
theorem C10_witness :
    ∃ s2, ToolboxController.setSelectedTool tbTools "Pan" =
        Except.ok (s2, [("Pan", false), ("Pan", true)]) ∧
      s2.selectedTool = some "Pan" ∧
      assocGet s2.toolList "Pan" = some { toolPan with active := true } :=
  C10_reselect tbTools "Pan" toolPan (by decide) (by decide)

/-- C5 counterexample: with no tool selected, a secondary-button press is
not routed to WindowLevel — `applySelectedTool` returns without calling any
handler — although WindowLevel is registered and declares a mousedown
handler, contradicting the claim that the override applies regardless of
current selection. -/
theorem C5_counterexample :
    assocGet toolWL.handlers "mousedown" = some 5 ∧
    ToolboxController.onMouchEvent tbNoSel
      { type := "mousedown", button := 2, buttons := 0 } = Except.ok none := by
  decide

/-- C5 amended: provided some tool is currently selected, a secondary-button
press (mousedown with button 2) or a move with the secondary button held
(mousemove with buttons 2) is routed to the handler of the fixed alternate
tool WindowLevel regardless of which tool is selected, and every other
dispatched mouse or touch event is routed to the selected tool's handler
for its kind; an unresolved handler (the chosen tool declares none for the
kind) makes the dispatch a no-op, and with no tool selected every dispatch
is a no-op. -/
theorem C5_routing_amended (s : TBState) (ev : MEvent) :
    (s.selectedTool = none →
      ToolboxController.onMouchEvent s ev = Except.ok none) ∧
    (∀ sel t tw, s.selectedTool = some sel →
      assocGet s.toolList sel = some t →
      assocGet s.toolList "WindowLevel" = some tw →
      ToolboxController.onMouchEvent s ev =
        Except.ok (if mouchSecondary ev then assocGet tw.handlers ev.type
                   else assocGet t.handlers ev.type)) := by
  constructor
  · intro h
    by_cases hs : mouchSecondary ev <;>
      simp [ToolboxController.onMouchEvent,
        ToolboxController.applySelectedTool, h, hs]
  · intro sel t tw hsel ht htw
    by_cases hs : mouchSecondary ev
    · simp [ToolboxController.onMouchEvent,
        ToolboxController.applySelectedTool, hsel, ht, htw, hs]
    · simp [ToolboxController.onMouchEvent,
        ToolboxController.applySelectedTool, hsel, ht, htw, hs]

/-- C5 witness: with Pan selected, a secondary-button press reaches
WindowLevel's mousedown handler and a primary press reaches Pan's. -/
theorem C5_witness :
    ToolboxController.onMouchEvent tbTools
      { type := "mousedown", button := 2, buttons := 0 } =
        Except.ok (some 5) ∧
    ToolboxController.onMouchEvent tbTools
      { type := "mousedown", button := 0, buttons := 0 } =
        Except.ok (some 1) := by
  constructor
  · have h := (C5_routing_amended tbTools
      { type := "mousedown", button := 2, buttons := 0 }).2
      "Pan" toolPan toolWL (by decide) (by decide) (by decide)
    rw [h]
    decide
  · have h := (C5_routing_amended tbTools
      { type := "mousedown", button := 0, buttons := 0 }).2
      "Pan" toolPan toolWL (by decide) (by decide) (by decide)
    rw [h]
    decide

/-- C2: evaluation at the failing input.  `bindLayer(L1, g)` registered one
memoized dispatch callback per canonical event kind plus the contextmenu
suppression listener (identity 9) on L1; `bindLayer(L2, g)` first runs the
internal unbind of L1, which removes the nine canonical listeners but calls
`removeEventListener('contextmenu', ...)` with a freshly created function,
so the suppression listener with identity 9 is still registered on L1 after
the unbind: the listener leaks and native context-menu behavior is not
restored. -/
theorem C2_contextmenu_leak :
    assocGet (ToolboxController.bindLayer
        (ToolboxController.bindLayer tbDemo "L1" "g") "L2" "g").dom "L1" =
      some { interactionBound := false,
             listeners := [("contextmenu", 9)] } := by
  decide

/-- C8: the dispatch callback for a (surface id, event kind) pair is created
at most once: a cached pair is returned as-is with the state unchanged,
after any `#getOnMouch` call the pair is cached (so every later request
returns the identical callback), and binding the same layer to the same
group twice in immediate succession leaves exactly one registered listener
per canonical event kind. -/
theorem C8_dispatcher_cache (s : TBState) (l e : String) :
    (∀ cb, assocGet s.callbackStore (l, e) = some cb →
      ToolboxController.getOnMouch s l e = (s, cb)) ∧
    (assocGet (ToolboxController.getOnMouch s l e).1.callbackStore (l, e) =
      some (ToolboxController.getOnMouch s l e).2) ∧
    (∀ name, name ∈ InteractionEventNames →
      countListeners (ToolboxController.bindLayer
          (ToolboxController.bindLayer tbDemo "L1" "g") "L1" "g")
        "L1" name = 1) := by
  refine ⟨?_, ?_, ?_⟩
  · intro cb h
    simp [ToolboxController.getOnMouch, h]
  · cases h : assocGet s.callbackStore (l, e) with
    | some cb => simp [ToolboxController.getOnMouch, h]
    | none => simp [ToolboxController.getOnMouch, h, assocGet_assocSet_self]
  · decide

/-- C8 witness: the second request for (L1, mousedown) returns the cached
callback created by the first, with the state unchanged. -/
theorem C8_witness :
    ToolboxController.getOnMouch
        (ToolboxController.getOnMouch tbDemo "L1" "mousedown").1
        "L1" "mousedown" =
      ((ToolboxController.getOnMouch tbDemo "L1" "mousedown").1, 0) := by
  have h := (C8_dispatcher_cache
    (ToolboxController.getOnMouch tbDemo "L1" "mousedown").1
    "L1" "mousedown").1 0 (by decide)
  exact h
